import Mathlib

/-!
Verification of the SLAC training core (`slac/algo.py`) against its
natural-language specification.

The development shallowly embeds the orchestrator `SlacAlgorithm`:
straight-line tensor arithmetic becomes functions over `ℚ` (or `ℝ` where
`exp`/`log` are intrinsic), batches become lists or index functions, the
external network bodies (encoder, actor, critic, decoder) become abstract
function parameters, and state-mutating methods become explicit state
transformers over a record of parameter blocks.
-/

/-- Mean of a list of rationals, as `tensor.mean()`: sum divided by length. -/
def qmean (xs : List ℚ) : ℚ := xs.sum / (xs.length : ℚ)

/-- Mean of a list of reals, as `tensor.mean()`: sum divided by length. -/
noncomputable def rmean (xs : List ℝ) : ℝ := xs.sum / (xs.length : ℝ)

/-- The mask computed in `SlacAlgorithm.step` (algo.py line 122):
`mask = False if t == env._max_episode_steps else done`, where `t` is the
counter value after the increment at the start of the call. -/
def step_mask (t max_episode_steps : ℕ) (done : Bool) : Bool :=
  if t = max_episode_steps then false else done

/-- Per-timestep, per-batch-element reward-prediction loss contribution in
`update_latent` (algo.py line 156): the negated Gaussian log-probability value
multiplied by `(1.0 - done_)`.  `glp b t` stands for the value
`calculate_gaussian_log_prob(log(reward_std_), reward_mean_ - reward_)` at
batch index `b` and time index `t`, kept abstract so the statement holds for
every output of the reward predictor. -/
def loss_reward_step (glp done : ℕ → ℕ → ℚ) (b t : ℕ) : ℚ :=
  -(glp b t) * (1 - done b t)

/-- The full reward-prediction loss in `update_latent` (algo.py lines 156-157):
`loss_reward.mean(dim=0).sum()` — mean over the batch dimension of size `B`,
then sum over the `T` time indices. -/
def loss_reward (glp done : ℕ → ℕ → ℚ) (B T : ℕ) : ℚ :=
  ((List.range T).map (fun t =>
    qmean ((List.range B).map (fun b => -(glp b t) * (1 - done b t))))).sum

/-- Modelled from the spec: the closed-form KL divergence between two
one-dimensional Gaussians, `KL(N(m1, s1) || N(m2, s2))`.  The function body
lives in `slac/utils.py` (`kl_divergence_loss`), which is not part of the
sources; the spec describes it as the closed-form diagonal-covariance Gaussian
KL.  Standard closed form per coordinate. -/
noncomputable def klGauss (m1 s1 m2 s2 : ℝ) : ℝ :=
  Real.log (s2 / s1) + (s1 ^ 2 + (m1 - m2) ^ 2) / (2 * s2 ^ 2) - 1 / 2

/-- Modelled from the spec: `kl_divergence_loss` over a batched sequence —
per-element closed-form Gaussian KL, averaged over the batch dimension of size
`B` and summed over the `T` time indices (spec 4.5, KL term).  Statistics are
given as functions of batch index and time index. -/
noncomputable def kl_divergence_loss (m1 s1 m2 s2 : ℕ → ℕ → ℝ) (B T : ℕ) : ℝ :=
  ((List.range T).map (fun t =>
    rmean ((List.range B).map (fun b =>
      klGauss (m1 b t) (s1 b t) (m2 b t) (s2 b t))))).sum

/-- The KL loss actually computed by `update_latent` (algo.py line 146):
`self.kl_divergence(z1_mean_post_, z1_std_post_, z1_mean_pri_, z1_mean_post_)`.
The fourth argument — the prior standard deviation slot — receives the
posterior mean `z1_mean_post_`; `z1_std_pri_` is in scope but unused, exactly
as at the call site. -/
noncomputable def loss_kld
    (z1_mean_post z1_std_post z1_mean_pri z1_std_pri : ℕ → ℕ → ℝ)
    (B T : ℕ) : ℝ :=
  kl_divergence_loss z1_mean_post z1_std_post z1_mean_pri z1_mean_post B T

/-- One element of a SAC batch as consumed by `update_critic`: the latent pair
`z(t)`, `z(t+1)`, the last action `a(t)`, the next feature-action context
`fa(t+1)`, and the final-step reward.  The latent, action and context spaces
are abstract. -/
structure SacBatchElem (Z FA Act : Type) where
  z : Z
  next_z : Z
  action : Act
  next_feature_action : FA
  reward : ℚ

/-- The bootstrapped next-state value of `update_critic` (algo.py lines
196-198): sample `next_action, log_pi = actor.sample(next_feature_action)`,
evaluate both target critics at `(next_z, next_action)`, and form
`min(next_q1, next_q2) - alpha * log_pi`.  `critic_target` and `actor_sample`
are the external network bodies, abstract here. -/
def next_q {Z FA Act : Type} (critic_target : Z → Act → ℚ × ℚ)
    (actor_sample : FA → Act × ℚ) (alpha : ℚ) (e : SacBatchElem Z FA Act) : ℚ :=
  let next_action := (actor_sample e.next_feature_action).1
  let log_pi := (actor_sample e.next_feature_action).2
  min (critic_target e.next_z next_action).1 (critic_target e.next_z next_action).2
    - alpha * log_pi

/-- The regression target of `update_critic` (algo.py line 199):
`target_q = reward + self.gamma * next_q`. -/
def target_q {Z FA Act : Type} (critic_target : Z → Act → ℚ × ℚ)
    (actor_sample : FA → Act × ℚ) (alpha gamma : ℚ) (e : SacBatchElem Z FA Act) : ℚ :=
  e.reward + gamma * next_q critic_target actor_sample alpha e

/-- The critic loss of `update_critic` (algo.py line 202):
`(curr_q1 - target_q).pow_(2).mean() + (curr_q2 - target_q).pow_(2).mean()`
over a batch. -/
def loss_critic {Z FA Act : Type} (critic critic_target : Z → Act → ℚ × ℚ)
    (actor_sample : FA → Act × ℚ) (alpha gamma : ℚ)
    (batch : List (SacBatchElem Z FA Act)) : ℚ :=
  qmean (batch.map (fun e =>
    ((critic e.z e.action).1 - target_q critic_target actor_sample alpha gamma e) ^ 2))
  + qmean (batch.map (fun e =>
    ((critic e.z e.action).2 - target_q critic_target actor_sample alpha gamma e) ^ 2))

/-- One committed sequence slot of the replay buffer, as described by the spec
(4.2): `L+1` states, `L` actions, `L` rewards, and the `L` mask/done flags
recorded at append time. -/
structure StoredSeq (S Act : Type) where
  states : List S
  actions : List Act
  rewards : List ℚ
  masks : List Bool
  dones : List Bool

/-- Modelled from the spec: the per-sequence payload of
`ReplayBuffer.sample_sac` (`slac/buffer.py` is not part of the sources) —
"returns states/actions for feature/latent computation plus just the
final-step reward" (spec 4.2).  The mask and done flags are not part of the
returned payload. -/
def sample_sac_seq {S Act : Type} (q : StoredSeq S Act) : List S × List Act × ℚ :=
  (q.states, q.actions, q.rewards.getLastD 0)

/-- The actor loss of `update_actor` (algo.py lines 212-216): sample
`action, log_pi = actor.sample(feature_action)`, evaluate both critics at
`(z, action)`, and take `mean(-(min(q1, q2) - alpha * log_pi))` over the
batch of `(z, feature_action)` pairs. -/
def loss_actor {Z FA Act : Type} (critic : Z → Act → ℚ × ℚ)
    (actor_sample : FA → Act × ℚ) (alpha : ℚ) (batch : List (Z × FA)) : ℚ :=
  qmean (batch.map (fun p =>
    -(min (critic p.1 (actor_sample p.2).1).1 (critic p.1 (actor_sample p.2).1).2
        - alpha * (actor_sample p.2).2)))

/-- The temperature loss of `update_actor` (algo.py line 224):
`-log_alpha * (target_entropy - entropy)`. -/
def loss_alpha (log_alpha target_entropy entropy : ℝ) : ℝ :=
  -log_alpha * (target_entropy - entropy)

/-- The mutable state owned by `SlacAlgorithm`: the four parameter blocks
(latent model, actor, critic, target critic), the learned temperature
`log_alpha` with its cached exponential `alpha`, the constants fixed at
construction, and the two learning-step counters.  The parameter-block types
are abstract: network internals are external collaborators. -/
structure SlacState (L A C : Type) where
  latent : L
  actor : A
  critic : C
  critic_target : C
  log_alpha : ℝ
  alpha : ℝ
  target_entropy : ℝ
  gamma : ℝ
  tau : ℝ
  learning_steps_sac : ℕ
  learning_steps_latent : ℕ

/-- Abstract interface to the external differentiation/optimizer machinery
(torch autograd plus the four Adam instances of `SlacAlgorithm.__init__`).
Each `adam_*` field returns the new value of the parameter block its
optimizer owns; its arguments are exactly the data the corresponding loss
reads, so the new block is a function of those data and nothing else.
`B` is the type of a sampled batch. -/
structure TorchOps (L A C B : Type) where
  adam_latent : L → B → L
  adam_critic : C → L → C → A → ℝ → ℝ → B → C
  adam_actor : A → C → L → ℝ → B → A
  adam_alpha : ℝ → (ℝ → ℝ) → ℝ
  log_pi_mean : A → L → B → ℝ
  soft_update : C → C → ℝ → C

/-- `SlacAlgorithm.__init__` (algo.py lines 25-91) restricted to the state it
creates: target critic initialized by `soft_update(critic_target, critic, 1.0)`,
`target_entropy = -float(action_shape[0])`, `log_alpha = zeros`, and
`alpha = log_alpha.exp()`; both step counters start at zero. -/
noncomputable def init_state {L A C B : Type} (ops : TorchOps L A C B)
    (latent0 : L) (actor0 : A) (critic0 critic_target0 : C)
    (action_dim : ℕ) (gamma tau : ℝ) : SlacState L A C :=
  { latent := latent0
    actor := actor0
    critic := critic0
    critic_target := ops.soft_update critic_target0 critic0 1
    log_alpha := 0
    alpha := Real.exp 0
    target_entropy := -(action_dim : ℝ)
    gamma := gamma
    tau := tau
    learning_steps_sac := 0
    learning_steps_latent := 0 }

/-- `SlacAlgorithm.update_latent` as a state transformer (algo.py lines
133-168): increment `learning_steps_latent`, then one step of the dedicated
latent optimizer.  `loss_latent` depends only on the latent-model parameters
and the sampled batch, so the gradient step is a function of those two. -/
def update_latent {L A C B : Type} (ops : TorchOps L A C B)
    (s : SlacState L A C) (batch : B) : SlacState L A C :=
  { s with
    learning_steps_latent := s.learning_steps_latent + 1
    latent := ops.adam_latent s.latent batch }

/-- `SlacAlgorithm.update_critic` as a state transformer (algo.py lines
193-206): one step of `optim_critic`, which owns only the critic parameters.
The loss reads the critic, the (no-grad) latent inference, the target critic,
the actor's next-action sample, `alpha` and `gamma`. -/
def update_critic {L A C B : Type} (ops : TorchOps L A C B)
    (s : SlacState L A C) (batch : B) : SlacState L A C :=
  { s with
    critic := ops.adam_critic s.critic s.latent s.critic_target s.actor
      s.alpha s.gamma batch }

/-- `SlacAlgorithm.update_actor` as a state transformer (algo.py lines
211-231): sample `log_pi` from the current actor, one step of `optim_actor`,
then `entropy = -log_pi.mean()`, one step of `optim_alpha` driven by the
temperature loss, and finally `alpha = exp(log_alpha)` under no-grad. -/
noncomputable def update_actor {L A C B : Type} (ops : TorchOps L A C B)
    (s : SlacState L A C) (batch : B) : SlacState L A C :=
  let entropy := -(ops.log_pi_mean s.actor s.latent batch)
  let actor1 := ops.adam_actor s.actor s.critic s.latent s.alpha batch
  let log_alpha1 := ops.adam_alpha s.log_alpha
    (fun la => loss_alpha la s.target_entropy entropy)
  { s with
    actor := actor1
    log_alpha := log_alpha1
    alpha := Real.exp log_alpha1 }

/-- The target soft-update closing `SlacAlgorithm.update_sac` (algo.py line
191): `soft_update(self.critic_target, self.critic, self.tau)`. -/
def target_soft_update {L A C B : Type} (ops : TorchOps L A C B)
    (s : SlacState L A C) : SlacState L A C :=
  { s with critic_target := ops.soft_update s.critic_target s.critic s.tau }

/-- `SlacAlgorithm.update_sac` as a state transformer (algo.py lines 170-191),
written monolithically following the data flow of one call: the counter is
incremented; the critic step reads the pre-call actor, alpha and target
critic; the actor's `log_pi` sample is drawn from the pre-step actor while the
actor step reads the just-updated critic `critic1`; the temperature step reads
the pre-call `log_alpha`; `alpha` is refreshed as `exp` of the new
`log_alpha`; the closing Polyak step mixes the just-updated critic into the
pre-call target critic. -/
noncomputable def update_sac {L A C B : Type} (ops : TorchOps L A C B)
    (s : SlacState L A C) (batch : B) : SlacState L A C :=
  let critic1 := ops.adam_critic s.critic s.latent s.critic_target s.actor
    s.alpha s.gamma batch
  let entropy := -(ops.log_pi_mean s.actor s.latent batch)
  let actor1 := ops.adam_actor s.actor critic1 s.latent s.alpha batch
  let log_alpha1 := ops.adam_alpha s.log_alpha
    (fun la => loss_alpha la s.target_entropy entropy)
  { s with
    learning_steps_sac := s.learning_steps_sac + 1
    critic := critic1
    actor := actor1
    log_alpha := log_alpha1
    alpha := Real.exp log_alpha1
    critic_target := ops.soft_update s.critic_target critic1 s.tau }

/-- The external environment collaborator used by `SlacAlgorithm.step`:
`step(action)`, `reset()`, `action_space.sample()` and the
`_max_episode_steps` attribute, over an abstract internal environment state
`ES`, observation type `S` and action type `Act`. -/
structure Env (ES S Act : Type) where
  step_fn : ES → Act → ES × S × ℚ × Bool
  reset_fn : ES → ES × S
  max_episode_steps : ℕ
  sample_action : ES → Act

/-- The replay-buffer operations `SlacAlgorithm.step` invokes, abstract over
the buffer representation (`slac/buffer.py` is an external collaborator
here): `append(action, reward, mask, state, done)` and
`reset_episode(state)`. -/
structure BufferOps (Buf S Act : Type) where
  append : Buf → Act → ℚ → Bool → S → Bool → Buf
  reset_episode : Buf → S → Buf

/-- The four pieces of mutable context `SlacAlgorithm.step` touches: the
returned step counter, the environment's internal state, the replay buffer,
and the caller-maintained rolling history `input`. -/
structure StepResult (ES Buf Inp : Type) where
  t : ℕ
  env_state : ES
  buffer : Buf
  input_hist : Inp

/-- The action selected by `SlacAlgorithm.step` (algo.py lines 116-119):
uniform-random during warm-up, otherwise the stochastic `explore` branch on
the rolling history. -/
def step_action {ES S Act Inp : Type} (env : Env ES S Act)
    (explore : Inp → Act) (inp : Inp) (es : ES) (is_random : Bool) : Act :=
  if is_random then env.sample_action es else explore inp

/-- `SlacAlgorithm.step` (algo.py lines 113-131): increment `t`, select the
action, advance the environment, compute the mask, append the transition; on
`done`, reset `t` to zero, reset the environment, append the fresh state to
the rolling history, and reset the buffer's in-progress episode window. -/
def slac_step {ES S Act Buf Inp : Type} (env : Env ES S Act)
    (bops : BufferOps Buf S Act) (input_append : Inp → S → Act → Inp)
    (explore : Inp → Act) (buf : Buf) (inp : Inp) (es : ES) (t : ℕ)
    (is_random : Bool) : StepResult ES Buf Inp :=
  let t1 := t + 1
  let action := step_action env explore inp es is_random
  let out := env.step_fn es action
  let es1 := out.1
  let state := out.2.1
  let reward := out.2.2.1
  let done := out.2.2.2
  let mask := step_mask t1 env.max_episode_steps done
  let buf1 := bops.append buf action reward mask state done
  if done then
    let reset_out := env.reset_fn es1
    { t := 0
      env_state := reset_out.1
      buffer := bops.reset_episode buf1 reset_out.2
      input_hist := input_append inp reset_out.2 action }
  else
    { t := t1, env_state := es1, buffer := buf1, input_hist := inp }

/-- A trivial concrete environment over unit observation/action spaces whose
single transition always reports `done = true`, with maximum episode length
`5`; used to evaluate `slac_step` on concrete data. -/
def unitEnv : Env Unit Unit Unit :=
  { step_fn := fun _ _ => ((), (), 0, true)
    reset_fn := fun _ => ((), ())
    max_episode_steps := 5
    sample_action := fun _ => () }

/-- Trivial concrete buffer operations over a unit buffer representation;
used to evaluate `slac_step` on concrete data. -/
def unitBufferOps : BufferOps Unit Unit Unit :=
  { append := fun _ _ _ _ _ _ => ()
    reset_episode := fun _ _ => () }

/-- Claim C2: for every combination of (post-increment) step counter `t`, done
flag, and maximum episode length, the mask computed inside
`SlacAlgorithm.step` equals `false` when `done` is true and `t` equals the
maximum episode length, and equals `done` in every other case. -/
theorem step_mask_correct (t max_episode_steps : ℕ) (done : Bool) :
    step_mask t max_episode_steps done =
      (if done = true ∧ t = max_episode_steps then false else done) := by
  unfold step_mask
  by_cases h : t = max_episode_steps <;> cases done <;> simp [h]

/-- Claim C5: the per-timestep reward-prediction loss contribution in
`update_latent` is multiplied by `(1 - done_flag)`, so it is exactly zero
whenever the done flag equals `1`, regardless of the reward predictor's
output; and the total reward loss is exactly the batch-mean of these
per-step contributions summed over time. -/
theorem reward_loss_zero_at_done (glp done : ℕ → ℕ → ℚ) (B T b t : ℕ)
    (h : done b t = 1) :
    loss_reward_step glp done b t = 0 ∧
      loss_reward glp done B T =
        ((List.range T).map (fun u =>
          qmean ((List.range B).map (fun a => loss_reward_step glp done a u)))).sum := by
  refine ⟨?_, rfl⟩
  unfold loss_reward_step
  rw [h]
  ring

/-- Concrete instantiation of `reward_loss_zero_at_done`: done flag constantly
`1`, Gaussian log-probability value constantly `5`, batch size `2`, sequence
length `3`. -/
theorem reward_loss_zero_at_done_witness :
    (fun _ _ : ℕ => (1 : ℚ)) 0 0 = 1 ∧
      (loss_reward_step (fun _ _ => 5) (fun _ _ => 1) 0 0 = 0 ∧
        loss_reward (fun _ _ => 5) (fun _ _ => 1) 2 3 =
          ((List.range 3).map (fun u =>
            qmean ((List.range 2).map (fun a =>
              loss_reward_step (fun _ _ => 5) (fun _ _ => 1) a u)))).sum) :=
  ⟨rfl, reward_loss_zero_at_done (fun _ _ => 5) (fun _ _ => 1) 2 3 0 0 rfl⟩

/-- Claim C6: `update_latent` performs exactly one gradient step through the
dedicated latent optimizer on the latent-model parameters (besides the
monitoring counter); the actor, critic, target-critic and `log_alpha` (and
cached `alpha`) are unchanged. -/
theorem update_latent_frame {L A C B : Type} (ops : TorchOps L A C B)
    (s : SlacState L A C) (batch : B) :
    (update_latent ops s batch).latent = ops.adam_latent s.latent batch ∧
    (update_latent ops s batch).actor = s.actor ∧
    (update_latent ops s batch).critic = s.critic ∧
    (update_latent ops s batch).critic_target = s.critic_target ∧
    (update_latent ops s batch).log_alpha = s.log_alpha ∧
    (update_latent ops s batch).alpha = s.alpha ∧
    (update_latent ops s batch).learning_steps_latent =
      s.learning_steps_latent + 1 :=
  ⟨rfl, rfl, rfl, rfl, rfl, rfl, rfl⟩

/-- Claim C7: `update_sac` never changes the latent-model parameters (the
posterior trajectory is computed under `torch.no_grad()` and `optim_latent`
is not stepped); the construction-time constants are untouched as well, so
only critic, actor, `log_alpha`/`alpha` and the target critic can change. -/
theorem update_sac_preserves_latent {L A C B : Type} (ops : TorchOps L A C B)
    (s : SlacState L A C) (batch : B) :
    (update_sac ops s batch).latent = s.latent ∧
    (update_sac ops s batch).learning_steps_latent = s.learning_steps_latent ∧
    (update_sac ops s batch).target_entropy = s.target_entropy ∧
    (update_sac ops s batch).gamma = s.gamma ∧
    (update_sac ops s batch).tau = s.tau :=
  ⟨rfl, rfl, rfl, rfl, rfl⟩

/-- Claim C8: every `update_sac` call decomposes as the fixed sequence:
critic update first, then actor update (which carries the temperature
update), then the Polyak soft-update of the target critic with coefficient
`tau` — applied to the state with the incremented SAC step counter. -/
theorem update_sac_order {L A C B : Type} (ops : TorchOps L A C B)
    (s : SlacState L A C) (batch : B) :
    update_sac ops s batch =
      target_soft_update ops
        (update_actor ops
          (update_critic ops
            { s with learning_steps_sac := s.learning_steps_sac + 1 } batch)
          batch) :=
  rfl

/-- Claim C9: `alpha = exp(log_alpha)` holds at construction with
`log_alpha = 0` (hence `alpha = 1`) and after every `update_sac` call, whose
new `log_alpha` is produced by the temperature optimizer from the previous
`log_alpha` (never reset) and the loss
`-log_alpha * (target_entropy - entropy)` with `entropy` the negated mean
log-probability of the just-sampled actions; `target_entropy` is initialized
to `-action_dim`. -/
theorem alpha_invariant {L A C B : Type} (ops : TorchOps L A C B)
    (latent0 : L) (actor0 : A) (critic0 critic_target0 : C) (action_dim : ℕ)
    (gamma0 tau0 : ℝ) (s : SlacState L A C) (batch : B) :
    (init_state ops latent0 actor0 critic0 critic_target0 action_dim gamma0 tau0).log_alpha
      = 0 ∧
    (init_state ops latent0 actor0 critic0 critic_target0 action_dim gamma0 tau0).alpha =
      Real.exp (init_state ops latent0 actor0 critic0 critic_target0 action_dim
        gamma0 tau0).log_alpha ∧
    (init_state ops latent0 actor0 critic0 critic_target0 action_dim gamma0 tau0).alpha
      = 1 ∧
    (init_state ops latent0 actor0 critic0 critic_target0 action_dim
      gamma0 tau0).target_entropy = -(action_dim : ℝ) ∧
    (update_sac ops s batch).alpha = Real.exp (update_sac ops s batch).log_alpha ∧
    (update_sac ops s batch).log_alpha =
      ops.adam_alpha s.log_alpha (fun la =>
        loss_alpha la s.target_entropy (-(ops.log_pi_mean s.actor s.latent batch))) ∧
    loss_alpha s.log_alpha s.target_entropy
        (-(ops.log_pi_mean s.actor s.latent batch)) =
      -s.log_alpha * (s.target_entropy - (-(ops.log_pi_mean s.actor s.latent batch))) :=
  ⟨rfl, rfl, Real.exp_zero, rfl, rfl, rfl, rfl⟩

/-- Claim C3: the regression target of `update_critic` equals the immediate
reward plus `gamma` times (the elementwise minimum of the two target critics
at the next latent and the freshly sampled next action, minus `alpha` times
the sampled log-probability); the critic loss is the sum of the two
mean-squared errors against this target; and the critic update leaves the
actor, the target critic, the latent model and `log_alpha` untouched (the
target is computed from them without gradient tracking). -/
theorem critic_target_and_loss {Z FA Act L A C B : Type}
    (critic critic_target : Z → Act → ℚ × ℚ) (actor_sample : FA → Act × ℚ)
    (alpha gamma : ℚ) (batch : List (SacBatchElem Z FA Act))
    (e : SacBatchElem Z FA Act) (ops : TorchOps L A C B)
    (s : SlacState L A C) (b : B) :
    target_q critic_target actor_sample alpha gamma e =
      e.reward + gamma *
        (min (critic_target e.next_z (actor_sample e.next_feature_action).1).1
            (critic_target e.next_z (actor_sample e.next_feature_action).1).2
          - alpha * (actor_sample e.next_feature_action).2) ∧
    loss_critic critic critic_target actor_sample alpha gamma batch =
      qmean (batch.map (fun x =>
        ((critic x.z x.action).1 -
          target_q critic_target actor_sample alpha gamma x) ^ 2)) +
      qmean (batch.map (fun x =>
        ((critic x.z x.action).2 -
          target_q critic_target actor_sample alpha gamma x) ^ 2)) ∧
    (update_critic ops s b).actor = s.actor ∧
    (update_critic ops s b).critic_target = s.critic_target ∧
    (update_critic ops s b).latent = s.latent ∧
    (update_critic ops s b).log_alpha = s.log_alpha :=
  ⟨rfl, rfl, rfl, rfl, rfl, rfl⟩

/-- Claim C4: the SAC payload drawn by `sample_sac` — states, actions, and the
final-step reward — is independent of the mask and done flags stored in the
buffer slot, and the one-step TD target is `reward + gamma * next_q`
unconditionally, with no `(1 - done)` or mask factor. -/
theorem sac_ignores_done_and_mask {S Act Z FA Act2 : Type}
    (states : List S) (actions : List Act) (rewards : List ℚ)
    (masks dones masks2 dones2 : List Bool)
    (critic_target : Z → Act2 → ℚ × ℚ) (actor_sample : FA → Act2 × ℚ)
    (alpha gamma : ℚ) (e : SacBatchElem Z FA Act2) :
    sample_sac_seq ⟨states, actions, rewards, masks, dones⟩ =
      sample_sac_seq ⟨states, actions, rewards, masks2, dones2⟩ ∧
    target_q critic_target actor_sample alpha gamma e =
      e.reward + gamma * next_q critic_target actor_sample alpha e :=
  ⟨rfl, rfl⟩

/-- Claim C10: every `SlacAlgorithm.step` call increments the counter and
appends the transition to the replay buffer; when the environment signals
done it additionally resets the counter to zero, resets the environment,
resets the buffer's in-progress episode window from the fresh initial state
(also appended to the rolling history) and returns `0`, while otherwise it
returns the incremented counter and performs no reset. -/
theorem slac_step_spec {ES S Act Buf Inp : Type} (env : Env ES S Act)
    (bops : BufferOps Buf S Act) (input_append : Inp → S → Act → Inp)
    (explore : Inp → Act) (buf : Buf) (inp : Inp) (es : ES) (t : ℕ)
    (is_random : Bool) (es1 : ES) (st : S) (rw : ℚ) (dn : Bool)
    (h : env.step_fn es (step_action env explore inp es is_random) =
      (es1, st, rw, dn)) :
    (dn = true →
      slac_step env bops input_append explore buf inp es t is_random =
        { t := 0
          env_state := (env.reset_fn es1).1
          buffer := bops.reset_episode
            (bops.append buf (step_action env explore inp es is_random) rw
              (step_mask (t + 1) env.max_episode_steps dn) st dn)
            (env.reset_fn es1).2
          input_hist := input_append inp (env.reset_fn es1).2
            (step_action env explore inp es is_random) }) ∧
    (dn = false →
      slac_step env bops input_append explore buf inp es t is_random =
        { t := t + 1
          env_state := es1
          buffer := bops.append buf (step_action env explore inp es is_random) rw
            (step_mask (t + 1) env.max_episode_steps dn) st dn
          input_hist := inp }) := by
  constructor <;> intro hd <;> subst hd <;> simp [slac_step, h]

/-- Concrete instantiation of `slac_step_spec`: unit environment with
`done = true`, pre-call counter `3`. -/
theorem slac_step_spec_witness :
    unitEnv.step_fn () (step_action unitEnv (fun _ => ()) () () false) =
      ((), (), 0, true) ∧
    ((true = true →
      slac_step unitEnv unitBufferOps (fun _ _ _ => ()) (fun _ => ()) () () () 3
          false =
        { t := 0, env_state := (), buffer := (), input_hist := () }) ∧
     (true = false →
      slac_step unitEnv unitBufferOps (fun _ _ _ => ()) (fun _ => ()) () () () 3
          false =
        { t := 4, env_state := (), buffer := (), input_hist := () })) :=
  ⟨rfl, slac_step_spec unitEnv unitBufferOps (fun _ _ _ => ()) (fun _ => ())
    () () () 3 false () () 0 true rfl⟩

/-- Claim C1 is refuted by the code: at line 146 of algo.py the fourth
argument of the KL routine — the prior standard-deviation slot — receives
`z1_mean_post_` instead of `z1_std_pri_`, so on the one-element batch with
posterior mean `2`, posterior std `1`, prior mean `0`, prior std `1` the
computed KL loss (`log 2 + 1/8`) differs from the claimed closed-form KL
between the posterior and prior Gaussians (`2`). -/
theorem kld_prior_std_slot_gets_posterior_mean :
    loss_kld (fun _ _ => 2) (fun _ _ => 1) (fun _ _ => 0) (fun _ _ => 1) 1 1 ≠
      kl_divergence_loss (fun _ _ => 2) (fun _ _ => 1) (fun _ _ => 0)
        (fun _ _ => 1) 1 1 := by
  have hlog2 : Real.log 2 < 0.6931471808 := Real.log_two_lt_d9
  unfold loss_kld kl_divergence_loss rmean klGauss
  norm_num [List.range_succ, Real.log_one]
  intro h
  nlinarith [h, hlog2]
